import Mathlib

/-
Verification of the Azure request/response proxy core
(src/app/azure/request_adapter.py and src/app/azure/adapter.py).

The embedding models Python values that arrive from Flask's
request.get_json as a JSON value type, and translates the two source
files' functions into total Lean functions.  Fallible Python code
(statements that can raise AttributeError, TypeError, or one of the two
project exception classes CursorConfigurationError and
ServiceConfigurationError) is embedded as Except-returning functions.
JSON numbers are modelled as integers: no claim touches numeric content,
and floating point is out of scope.
-/

namespace CursorAzure

/-- JSON values as produced by Flask request.get_json.  Python None and
JSON null are both modelled as `null` (Python's json module decodes null
to None, and dict.get returns None for a missing key). -/
inductive Json where
  | null
  | bool (b : Bool)
  | num (n : Int)
  | str (s : String)
  | arr (elems : List Json)
  | obj (fields : List (String × Json))

/-- First binding of a key in a JSON object (Python dict lookup; parsed
JSON objects bind each key once). -/
def getKey : List (String × Json) → String → Option Json
  | [], _ => none
  | (k, v) :: rest, key => if k = key then some v else getKey rest key

/-- Python dict.get with the default None: a missing key and a null value
are indistinguishable, both give Python None, i.e. `Json.null`. -/
def pyGet (kvs : List (String × Json)) (key : String) : Json :=
  (getKey kvs key).getD Json.null

/-- Python truthiness of a JSON-shaped value: None, False, 0, the empty
string, the empty list and the empty dict are falsy. -/
def pyTruthy : Json → Bool
  | Json.null => false
  | Json.bool b => b
  | Json.num n => n != 0
  | Json.str s => s != ""
  | Json.arr l => !l.isEmpty
  | Json.obj l => !l.isEmpty

/-- Python `a or b`: `a` when truthy, else `b`. -/
def pyOr (a b : Json) : Json :=
  if pyTruthy a then a else b

/-- Python `value == "target"` for a JSON-shaped value against a string
literal: true exactly when the value is that string. -/
def roleIs (v : Json) (target : String) : Bool :=
  match v with
  | Json.str s => s = target
  | _ => false

/-- The apostrophe character, used by Python's repr of strings. -/
def sq : Char := Char.ofNat 39

/-- One character of a Python repr string body, escaped relative to the
chosen quote character.  Escapes of characters outside quote, backslash,
newline, carriage return and tab are not modelled; no claim depends on
them. -/
def pyCharEsc (quote : Char) (c : Char) : String :=
  if c = '\\' then "\\\\"
  else if c = quote then "\\" ++ String.singleton quote
  else if c = '\n' then "\\n"
  else if c = '\r' then "\\r"
  else if c = '\t' then "\\t"
  else String.singleton c

/-- Python repr of a str: single-quoted, or double-quoted when the string
contains an apostrophe but no double quote. -/
def pyReprString (s : String) : String :=
  let quote := if s.data.contains sq && !(s.data.contains '"') then '"' else sq
  String.singleton quote ++ String.join (s.data.map (pyCharEsc quote)) ++ String.singleton quote

mutual
/-- Python repr of a JSON-shaped value. -/
def pyRepr : Json → String
  | Json.null => "None"
  | Json.bool true => "True"
  | Json.bool false => "False"
  | Json.num n => toString n
  | Json.str s => pyReprString s
  | Json.arr l => "[" ++ String.intercalate ", " (pyReprList l) ++ "]"
  | Json.obj l => "\x7b" ++ String.intercalate ", " (pyReprPairs l) ++ "\x7d"

/-- Reprs of the elements of a Python list. -/
def pyReprList : List Json → List String
  | [] => []
  | j :: js => pyRepr j :: pyReprList js

/-- Reprs of the key: value pairs of a Python dict. -/
def pyReprPairs : List (String × Json) → List String
  | [] => []
  | (k, v) :: rest => (pyReprString k ++ ": " ++ pyRepr v) :: pyReprPairs rest
end

/-- Python str() of a JSON-shaped value: the string itself for a str,
repr otherwise (str and repr agree on None, bools, ints, lists and
dicts). -/
def pyStr : Json → String
  | Json.str s => s
  | j => pyRepr j

/-- One character of a JSON string body as json.dumps emits it.  The
ensure_ascii \uXXXX escapes of control and non-ASCII characters are not
modelled; no claim depends on them. -/
def jsonEscChar (c : Char) : String :=
  if c = '"' then "\\\""
  else if c = '\\' then "\\\\"
  else if c = '\n' then "\\n"
  else if c = '\r' then "\\r"
  else if c = '\t' then "\\t"
  else String.singleton c

/-- A JSON string literal as json.dumps emits it. -/
def jsonQuote (s : String) : String :=
  "\"" ++ String.join (s.data.map jsonEscChar) ++ "\""

mutual
/-- json.dumps with the default separators (", " and ": "). -/
def jsonDumps : Json → String
  | Json.null => "null"
  | Json.bool true => "true"
  | Json.bool false => "false"
  | Json.num n => toString n
  | Json.str s => jsonQuote s
  | Json.arr l => "[" ++ String.intercalate ", " (jsonDumpsList l) ++ "]"
  | Json.obj l => "\x7b" ++ String.intercalate ", " (jsonDumpsPairs l) ++ "\x7d"

/-- Serialized elements of a JSON array. -/
def jsonDumpsList : List Json → List String
  | [] => []
  | j :: js => jsonDumps j :: jsonDumpsList js

/-- Serialized members of a JSON object. -/
def jsonDumpsPairs : List (String × Json) → List String
  | [] => []
  | (k, v) :: rest => (jsonQuote k ++ ": " ++ jsonDumps v) :: jsonDumpsPairs rest
end

/-- One element of a list-shaped content value, as RequestAdapter's
list branch of _content_to_text handles it: a string passes through, a
dict prefers its truthy "text" field then its "content" field and is
skipped (`none`) when that leaves Python None, anything else is
stringified. -/
def partToText (part : Json) : Option String :=
  match part with
  | Json.str s => some s
  | Json.obj kvs =>
    let textValue := pyOr (pyGet kvs "text") (pyGet kvs "content")
    match textValue with
    | Json.null => none
    | Json.str s => some s
    | v => some (pyStr v)
  | p => some (pyStr p)

/-- RequestAdapter._content_to_text: normalize a content value of unknown
shape to a single string.  Python None (absent content) is `Json.null`. -/
def contentToText : Json → String
  | Json.null => ""
  | Json.str s => s
  | Json.arr parts =>
    String.intercalate "\n" ((parts.filterMap partToText).filter (fun t => t != ""))
  | Json.obj kvs =>
    let textValue := pyOr (pyGet kvs "text") (pyGet kvs "content")
    (match textValue with
     | Json.null => jsonDumps (Json.obj kvs)
     | Json.str s => s
     | v => pyStr v)
  | j => pyStr j

/-- Failure modes of RequestAdapter.adapt: Python AttributeError and
TypeError for ill-shaped inputs, plus the two project exception classes
raised explicitly in request_adapter.py. -/
inductive AdaptError where
  | attributeError (detail : String)
  | typeError (detail : String)
  | cursorConfigurationError (message : String)
  | serviceConfigurationError (message : String)

/-- An item of the Responses-protocol "input" list, as the dicts built in
RequestAdapter._messages_to_responses_input_and_instructions:
a function_call_output dict (tool messages), a conversation-turn dict
with one typed content part, or a function_call dict (assistant
tool_calls). -/
inductive InputItem where
  | functionCallOutput (output : String) (status : String) (callId : Json)
  | turn (role : Json) (partType : String) (text : String)
  | functionCall (name : Json) (arguments : Json) (callId : Json)

/-- One assistant tool_call dict turned into a function_call input item.
tool_call.get("function", dict()) defaults only a missing key; a present
non-dict value (null included) raises AttributeError at function.get. -/
def toolCallToItem (tc : Json) : Except AdaptError InputItem :=
  match tc with
  | Json.obj kvs =>
    match (getKey kvs "function").getD (Json.obj []) with
    | Json.obj fkvs =>
      Except.ok (InputItem.functionCall (pyGet fkvs "name") (pyGet fkvs "arguments") (pyGet kvs "id"))
    | _ => Except.error (AdaptError.attributeError "function value has no attribute get")
  | _ => Except.error (AdaptError.attributeError "tool_call has no attribute get")

/-- The tool_calls list of one assistant message, in order. -/
def toolCallsToItems : List Json → Except AdaptError (List InputItem)
  | [] => Except.ok []
  | tc :: rest =>
    match toolCallToItem tc with
    | Except.error e => Except.error e
    | Except.ok item =>
      match toolCallsToItems rest with
      | Except.error e => Except.error e
      | Except.ok items => Except.ok (item :: items)

/-- The message loop of
RequestAdapter._messages_to_responses_input_and_instructions: walk the
messages in order, accumulating normalized system/developer contents and
the input items of the other roles.  A non-dict message raises
AttributeError at m.get; a truthy non-list tool_calls value fails while
iterated (its elements, or itself, lack .get — dict and str iteration
yield strings; numbers and booleans are not iterable at all). -/
def collectMessages : List Json → Except AdaptError (List String × List InputItem)
  | [] => Except.ok ([], [])
  | m :: rest =>
    match m with
    | Json.obj kvs =>
      let role := pyGet kvs "role"
      let content := contentToText (pyGet kvs "content")
      if roleIs role "system" || roleIs role "developer" then
        match collectMessages rest with
        | Except.error e => Except.error e
        | Except.ok (ips, its) => Except.ok (content :: ips, its)
      else if roleIs role "tool" then
        match collectMessages rest with
        | Except.error e => Except.error e
        | Except.ok (ips, its) =>
          Except.ok (ips, InputItem.functionCallOutput content "completed" (pyGet kvs "tool_call_id") :: its)
      else
        let turnItem := InputItem.turn (pyOr role (Json.str "user"))
          (if roleIs role "user" then "input_text" else "output_text") content
        let tcVal := pyGet kvs "tool_calls"
        match (if pyTruthy tcVal then
                 match tcVal with
                 | Json.arr tcs => toolCallsToItems tcs
                 | Json.str _ => Except.error (AdaptError.attributeError "str object has no attribute get")
                 | Json.obj _ => Except.error (AdaptError.attributeError "str object has no attribute get")
                 | _ => Except.error (AdaptError.typeError "tool_calls object is not iterable")
               else Except.ok []) with
        | Except.error e => Except.error e
        | Except.ok tcItems =>
          match collectMessages rest with
          | Except.error e => Except.error e
          | Except.ok (ips, its) => Except.ok (ips, turnItem :: (tcItems ++ its))
    | _ => Except.error (AdaptError.attributeError "message has no attribute get")

/-- RequestAdapter._messages_to_responses_input_and_instructions: the
instructions string joins the system/developer contents with a blank
line, and both fields become None rather than an empty list or an empty
join. -/
def messagesToResponsesInputAndInstructions (msgs : List Json) :
    Except AdaptError (Option String × Option (List InputItem)) :=
  match collectMessages msgs with
  | Except.error e => Except.error e
  | Except.ok (ips, its) =>
    Except.ok ((if ips.isEmpty then none else some (String.intercalate "\n\n" ips)),
               (if its.isEmpty then none else some its))

/-- A flattened tool schema as built by
RequestAdapter._transform_tools_for_responses. -/
structure ToolSchema where
  type : String
  name : Json
  description : Json
  parameters : Json
  strict : Bool

/-- One inbound tool definition flattened.  tool.get("function") has no
default, so a missing or non-dict function value raises AttributeError at
function.get. -/
def transformTool (tool : Json) : Except AdaptError ToolSchema :=
  match tool with
  | Json.obj kvs =>
    match pyGet kvs "function" with
    | Json.obj fkvs =>
      Except.ok { type := "function", name := pyGet fkvs "name",
                  description := pyGet fkvs "description",
                  parameters := pyGet fkvs "parameters", strict := false }
    | _ => Except.error (AdaptError.attributeError "function value has no attribute get")
  | _ => Except.error (AdaptError.attributeError "tool has no attribute get")

/-- The tools list element-wise, in order. -/
def transformToolList : List Json → Except AdaptError (List ToolSchema)
  | [] => Except.ok []
  | t :: ts =>
    match transformTool t with
    | Except.error e => Except.error e
    | Except.ok s =>
      match transformToolList ts with
      | Except.error e => Except.error e
      | Except.ok rest => Except.ok (s :: rest)

/-- RequestAdapter._transform_tools_for_responses: a non-list tools
payload is logged and yields the empty list, non-fatally. -/
def transformToolsForResponses (tools : Json) : Except AdaptError (List ToolSchema) :=
  match tools with
  | Json.arr ts => transformToolList ts
  | _ => Except.ok []

/-- Python str.replace("gpt-", "") on the character list: every
occurrence of the pattern is removed, scanning left to right over the
original string without rescanning emitted output. -/
def replaceGptAllAux : List Char → List Char
  | 'g' :: 'p' :: 't' :: '-' :: rest => replaceGptAllAux rest
  | c :: rest => c :: replaceGptAllAux rest
  | [] => []

/-- inbound_model.replace("gpt-", ""): delete every occurrence of the
substring "gpt-" (case-sensitively). -/
def replaceGptAll (s : String) : String :=
  String.mk (replaceGptAllAux s.data)

/-- Python str.lower for the ASCII strings the adapter handles. -/
def pyLower (s : String) : String :=
  String.mk (s.data.map Char.toLower)

/-- The four reasoning-effort levels accepted by RequestAdapter.adapt. -/
def allowedEfforts : List String := ["high", "medium", "low", "minimal"]

/-- Operator configuration read from current_app.config. -/
structure Settings where
  azureApiKey : String
  azureDeployment : String
  azureSummaryLevel : String
  azureVerbosityLevel : String
  azureTruncation : String
  azureResponsesApiUrl : String

/-- The inbound Flask request as the adapter consumes it: its headers and
the result of request.get_json(silent=True), which is `none` when the
body does not parse as JSON (and `some Json.null` when it is the JSON
literal null — both are Python None downstream). -/
structure InboundReq where
  headers : List (String × String)
  payload : Option Json

/-- RequestAdapter._copy_request_headers_for_azure: copy the inbound
headers, drop Host and Authorization, and set the api-key header. -/
def copyRequestHeadersForAzure (src : List (String × String)) (apiKey : String) :
    List (String × String) :=
  (src.filter (fun kv => kv.fst ≠ "Host" && kv.fst ≠ "Authorization")) ++ [("api-key", apiKey)]

/-- The reasoning dict of the outbound body (summary always present on
the success path, since an invalid summary level raises). -/
structure Reasoning where
  effort : String
  summary : String

/-- The text dict of the outbound body. -/
structure TextField where
  verbosity : String

/-- The stream_options dict of the outbound body. -/
structure StreamOptions where
  include_obfuscation : Bool

/-- The Responses-protocol request body built by RequestAdapter.adapt. -/
structure OutBody where
  instructions : Option String
  input : Option (List InputItem)
  model : String
  tools : List ToolSchema
  tool_choice : Json
  prompt_cache_key : Json
  stream : Bool
  reasoning : Reasoning
  text : Option TextField
  store : Bool
  stream_options : StreamOptions
  truncation : Option String

/-- The kwargs dict handed to requests.request. -/
structure RequestKwargs where
  method : String
  url : String
  headers : List (String × String)
  json : OutBody
  data : Option String
  stream : Bool
  timeout : Nat × Option Nat

/-- The messages section of RequestAdapter.adapt:
payload.get("messages") or [], then the message translation when that is
a list, else the None/None dict. -/
def messagesStage (kvs : List (String × Json)) :
    Except AdaptError (Option String × Option (List InputItem)) :=
  match pyOr (pyGet kvs "messages") (Json.arr []) with
  | Json.arr msgs => messagesToResponsesInputAndInstructions msgs
  | _ => Except.ok (none, none)

/-- The tools section of RequestAdapter.adapt:
payload.get("tools", []) fed to the schema flattening. -/
def toolsStage (kvs : List (String × Json)) : Except AdaptError (List ToolSchema) :=
  transformToolsForResponses ((getKey kvs "tools").getD (Json.arr []))

/-- RequestAdapter.adapt, in the source's statement order.  A payload
that is not a dict (None included) raises AttributeError at
payload.get("messages"); a non-string model value raises AttributeError
at inbound_model.replace.  The per-request inbound_model state write is
side-effect-only and not observable here. -/
def adapt (req : InboundReq) (settings : Settings) : Except AdaptError RequestKwargs :=
  match req.payload with
  | some (Json.obj kvs) =>
    let inboundModel := pyGet kvs "model"
    let upstreamHeaders := copyRequestHeadersForAzure req.headers settings.azureApiKey
    match messagesStage kvs with
    | Except.error e => Except.error e
    | Except.ok (instructions, inputItems) =>
      match toolsStage kvs with
      | Except.error e => Except.error e
      | Except.ok tools =>
        let toolChoice := pyGet kvs "tool_choice"
        let promptCacheKey := pyGet kvs "user"
        match inboundModel with
        | Json.str modelStr =>
          let reasoningEffort := pyLower (replaceGptAll modelStr)
          if reasoningEffort ∈ allowedEfforts then
            if settings.azureSummaryLevel ∈ ["auto", "detailed", "concise"] then
              Except.ok
                { method := "POST", url := settings.azureResponsesApiUrl,
                  headers := upstreamHeaders,
                  json :=
                    { instructions := instructions, input := inputItems,
                      model := settings.azureDeployment, tools := tools,
                      tool_choice := toolChoice, prompt_cache_key := promptCacheKey,
                      stream := true,
                      reasoning := { effort := reasoningEffort,
                                     summary := settings.azureSummaryLevel },
                      text := (if settings.azureVerbosityLevel ∈ ["low", "high"]
                               then some { verbosity := settings.azureVerbosityLevel }
                               else none),
                      store := false,
                      stream_options := { include_obfuscation := false },
                      truncation := (if settings.azureTruncation = "auto"
                                     then some settings.azureTruncation else none) },
                  data := none, stream := true, timeout := (60, none) }
            else
              Except.error (AdaptError.serviceConfigurationError
                ("AZURE_SUMMARY_LEVEL must be either auto, detailed, or concise.\n\nGot: "
                  ++ settings.azureSummaryLevel))
          else
            Except.error (AdaptError.cursorConfigurationError
              ("Model name must be either gpt-high, gpt-medium, gpt-low, or gpt-minimal.\n\nGot: "
                ++ modelStr))
        | _ => Except.error (AdaptError.attributeError "inbound model has no attribute replace")
  | _ => Except.error (AdaptError.attributeError "request payload has no attribute get")

/-- Maximal newline-free runs of a character list, in order.  re's `.`
matches every character except the newline, so these runs are exactly
the regions a dot-only pattern can match inside. -/
def splitNl : List Char → List (List Char)
  | [] => [[]]
  | c :: cs =>
    if c = '\n' then [] :: splitNl cs
    else
      match splitNl cs with
      | seg :: rest => (c :: seg) :: rest
      | [] => [[c]]

/-- The effect of one match of the cache-key pattern on a newline-free
run: a run of six or more characters keeps its first three and last
three with the greedy middle group replaced by three asterisks; a
shorter run cannot be matched and is left unchanged. -/
def redactRunL (seg : List Char) : List Char :=
  if 6 ≤ seg.length then
    seg.take 3 ++ ['*', '*', '*'] ++ seg.drop (seg.length - 3)
  else seg

/-- AzureAdapter._handle_azure_error's cache-key substitution
re.sub over the pattern of three dots, a greedy dot-star and three dots,
replaced by group 1, three asterisks, group 3.  Scanning left to right,
each maximal newline-free run of length at least six is consumed by one
greedy match; shorter runs never match and survive verbatim. -/
def reSubCacheKey (s : String) : String :=
  String.mk (List.intercalate ['\n'] ((splitNl s.data).map redactRunL))

/-- The redacted request_body dict placed in the diagnostic report:
instructions, tools, input and prompt_cache_key are overwritten with
strings; the remaining keys are untouched and carry no caller content, so
they are not repeated here. -/
structure RedactedOutBody where
  instructions : String
  tools : String
  input : String
  prompt_cache_key : String

/-- The body-redaction block of AzureAdapter._handle_azure_error
(the adapter.py lines mutating body before composing the report):
instructions become a 16-character preview with an ellipsis or a
"no instructions" marker, tools and input are replaced by count-only
markers, and prompt_cache_key (or its absence marker) goes through the
re.sub masking. -/
def redactOutBody (b : OutBody) : RedactedOutBody :=
  let instructionsPreview :=
    match b.instructions with
    | none => "no instructions"
    | some s => if s = "" then "no instructions" else s
  { instructions := instructionsPreview.take 16 ++ "...",
    tools := "...redacted " ++ toString b.tools.length ++ " tools...",
    input := "...redacted "
      ++ toString (match b.input with | some l => l.length | none => 0)
      ++ " input items...",
    prompt_cache_key := reSubCacheKey
      (if pyTruthy b.prompt_cache_key then pyStr b.prompt_cache_key
       else "no prompt_cache_key") }

/-- AzureAdapter._handle_azure_error's returned Flask Response, reduced
to its status code and the redacted request body it reports: the status
is the vendor's except that 401 becomes 400.  The report's other parts
(redacted endpoint URL, vendor response text, console logging and JSON
pretty-printing) are I/O formatting no claim depends on. -/
def handleAzureError (status : Nat) (kwargs : RequestKwargs) : Nat × RedactedOutBody :=
  (if status = 401 then 400 else status, redactOutBody kwargs.json)

/-- What the single upstream requests.request call does: either the
vendor answers with some status, or the transport fails (connection
error, connect timeout) and requests raises. -/
inductive NetOutcome where
  | reply (status : Nat)
  | transportFailure (err : String)

/-- The observable outcome of AzureAdapter.forward: a streamed reply
delegated to the ResponseAdapter, an error Response from
_handle_azure_error, an adapt exception propagating to the server layer,
or a transport exception propagating to the server layer (forward wraps
requests.request in no handler). -/
inductive ForwardOutcome where
  | streamed
  | errorResponse (status : Nat) (body : RedactedOutBody)
  | adaptFailure (e : AdaptError)
  | transportException (err : String)

/-- AzureAdapter.forward, paired with the list of outbound calls it
issues: adapt, then record_payload (an external audit collaborator, not
a network call), then exactly one requests.request, then either the
ResponseAdapter (status 200) or _handle_azure_error. -/
def forward (req : InboundReq) (settings : Settings) (net : NetOutcome) :
    List RequestKwargs × ForwardOutcome :=
  match adapt req settings with
  | Except.error e => ([], ForwardOutcome.adaptFailure e)
  | Except.ok kwargs =>
    match net with
    | NetOutcome.transportFailure err => ([kwargs], ForwardOutcome.transportException err)
    | NetOutcome.reply status =>
      if status ≠ 200 then
        ([kwargs], ForwardOutcome.errorResponse (handleAzureError status kwargs).fst
                      (handleAzureError status kwargs).snd)
      else ([kwargs], ForwardOutcome.streamed)

/-- The outbound body when adapt succeeds, for stating claims about
single fields without spelling the whole kwargs record. -/
def adaptBody (req : InboundReq) (settings : Settings) : Option OutBody :=
  match adapt req settings with
  | Except.ok kwargs => some kwargs.json
  | Except.error _ => none

/-- An assistant tool_call dict that the loop can flatten without
raising: a dict whose function value, after the empty-dict default, is a
dict. -/
def toolCallOk (tc : Json) : Bool :=
  match tc with
  | Json.obj kvs =>
    match (getKey kvs "function").getD (Json.obj []) with
    | Json.obj _ => true
    | _ => false
  | _ => false

/-- A message dict the message loop can process without raising: any
dict, except that a non-system/developer/tool message with a truthy
tool_calls value needs that value to be a list of flattenable
tool_calls. -/
def msgOk (m : Json) : Bool :=
  match m with
  | Json.obj kvs =>
    let role := pyGet kvs "role"
    if roleIs role "system" || roleIs role "developer" then true
    else if roleIs role "tool" then true
    else
      let tcVal := pyGet kvs "tool_calls"
      if pyTruthy tcVal then
        match tcVal with
        | Json.arr tcs => tcs.all toolCallOk
        | _ => false
      else true
  | _ => false

/-- A tool definition the schema flattening accepts: a dict whose
function value is a dict. -/
def toolOk (tool : Json) : Bool :=
  match tool with
  | Json.obj kvs =>
    match pyGet kvs "function" with
    | Json.obj _ => true
    | _ => false
  | _ => false

/-- A payload dict whose messages and tools stages of adapt cannot
raise, leaving the model-derived stages as the only failure sources. -/
def benignPayload (kvs : List (String × Json)) : Bool :=
  (match pyOr (pyGet kvs "messages") (Json.arr []) with
   | Json.arr msgs => msgs.all msgOk
   | _ => true)
  && (match (getKey kvs "tools").getD (Json.arr []) with
      | Json.arr ts => ts.all toolOk
      | _ => true)

/-- Whether get_json produced a dict, the shape adapt's happy path
needs. -/
def isObjPayload : Option Json → Bool
  | some (Json.obj _) => true
  | _ => false

/-- Modelled from the spec claim wording for the model-to-effort rule:
strip a fixed "gpt-" prefix from the inbound model name and lowercase
the remainder.  Stated for comparison against the code's
replace-all-occurrences behaviour. -/
def specEffortOfModel (m : String) : String :=
  pyLower (match m.data with
           | 'g' :: 'p' :: 't' :: '-' :: rest => String.mk rest
           | _ => m)

/-- Modelled from the spec claim wording for the instructions rule: the
normalized contents of the system/developer messages, in original
order. -/
def instructionDraft : List Json → List String
  | [] => []
  | m :: rest =>
    match m with
    | Json.obj kvs =>
      if roleIs (pyGet kvs "role") "system" || roleIs (pyGet kvs "role") "developer" then
        contentToText (pyGet kvs "content") :: instructionDraft rest
      else instructionDraft rest
    | _ => instructionDraft rest

/-- A benign operator configuration: valid summary level, the default
verbosity, truncation off. -/
def settings0 : Settings :=
  { azureApiKey := "k", azureDeployment := "dep", azureSummaryLevel := "auto",
    azureVerbosityLevel := "medium", azureTruncation := "disabled",
    azureResponsesApiUrl := "https://resource.openai.azure.com/responses" }

/-- settings0 with a verbosity value outside every documented
enumeration. -/
def settingsBanana : Settings :=
  { settings0 with azureVerbosityLevel := "banana" }

/-- A minimal well-formed inbound request: model gpt-low, one user
message. -/
def reqHi : InboundReq :=
  { headers := [],
    payload := some (Json.obj
      [("model", Json.str "gpt-low"),
       ("messages", Json.arr
         [Json.obj [("role", Json.str "user"), ("content", Json.str "hi")]])]) }

/-- An inbound request whose model name contains "gpt-" twice. -/
def reqDoubleGpt : InboundReq :=
  { headers := [],
    payload := some (Json.obj [("model", Json.str "gpt-gpt-low")]) }

/-- Two system messages followed by a user message. -/
def msgsTwoSystems : List Json :=
  [Json.obj [("role", Json.str "system"), ("content", Json.str "a")],
   Json.obj [("role", Json.str "system"), ("content", Json.str "b")],
   Json.obj [("role", Json.str "user"), ("content", Json.str "hi")]]

/-- The payload dict of an inbound request with two system messages then
a user message. -/
def kvsTwoSystems : List (String × Json) :=
  [("model", Json.str "gpt-low"), ("messages", Json.arr msgsTwoSystems)]

/-- An inbound request with two system messages then a user message. -/
def reqTwoSystems : InboundReq :=
  { headers := [], payload := some (Json.obj kvsTwoSystems) }

/-- An outbound body whose prompt_cache_key is the five-character string
"abcde", as adapt builds from an inbound user field "abcde". -/
def bShort : OutBody :=
  { instructions := none, input := none, model := "dep", tools := [],
    tool_choice := Json.null, prompt_cache_key := Json.str "abcde", stream := true,
    reasoning := { effort := "low", summary := "auto" }, text := none, store := false,
    stream_options := { include_obfuscation := false }, truncation := none }

/-- An outbound body with no prompt_cache_key (inbound user field
absent, so adapt stored Python None). -/
def bAbsent : OutBody :=
  { bShort with prompt_cache_key := Json.null }

/-- An outbound body whose prompt_cache_key is the eight-character
string "abcdefgh". -/
def bKey8 : OutBody :=
  { bShort with prompt_cache_key := Json.str "abcdefgh" }

/-- A newline-free character list is a single run for the re.sub
scan. -/
theorem splitNl_no_newline (l : List Char) (h : ∀ c ∈ l, c ≠ '\n') : splitNl l = [l] := by
  induction l with
  | nil => rfl
  | cons c cs ih =>
    have hc : c ≠ '\n' := h c (List.mem_cons_self c cs)
    have ih' : splitNl cs = [cs] := ih (fun x hx => h x (List.mem_cons_of_mem c hx))
    simp [splitNl, hc, ih']

/-- A flattenable tool_call is flattened without an exception. -/
theorem toolCallToItem_ok (tc : Json) (h : toolCallOk tc = true) :
    ∃ item, toolCallToItem tc = Except.ok item := by
  cases tc
  · simp [toolCallOk] at h
  · simp [toolCallOk] at h
  · simp [toolCallOk] at h
  · simp [toolCallOk] at h
  · simp [toolCallOk] at h
  · rename_i kvs
    simp only [toolCallOk] at h
    simp only [toolCallToItem]
    cases hfv : (getKey kvs "function").getD (Json.obj [])
    · rw [hfv] at h; simp at h
    · rw [hfv] at h; simp at h
    · rw [hfv] at h; simp at h
    · rw [hfv] at h; simp at h
    · rw [hfv] at h; simp at h
    · exact ⟨_, rfl⟩

/-- A list of flattenable tool_calls is flattened without an
exception. -/
theorem toolCallsToItems_ok (tcs : List Json) (h : tcs.all toolCallOk = true) :
    ∃ items, toolCallsToItems tcs = Except.ok items := by
  induction tcs with
  | nil => exact ⟨[], rfl⟩
  | cons tc rest ih =>
    rw [List.all_cons, Bool.and_eq_true] at h
    obtain ⟨h1, h2⟩ := h
    obtain ⟨item, hitem⟩ := toolCallToItem_ok tc h1
    obtain ⟨items, hitems⟩ := ih h2
    exact ⟨item :: items, by simp [toolCallsToItems, hitem, hitems]⟩

/-- A well-shaped tool definition is transformed without an
exception. -/
theorem transformTool_ok (tool : Json) (h : toolOk tool = true) :
    ∃ s, transformTool tool = Except.ok s := by
  cases tool
  · simp [toolOk] at h
  · simp [toolOk] at h
  · simp [toolOk] at h
  · simp [toolOk] at h
  · simp [toolOk] at h
  · rename_i kvs
    simp only [toolOk] at h
    simp only [transformTool]
    cases hfv : pyGet kvs "function"
    · rw [hfv] at h; simp at h
    · rw [hfv] at h; simp at h
    · rw [hfv] at h; simp at h
    · rw [hfv] at h; simp at h
    · rw [hfv] at h; simp at h
    · exact ⟨_, rfl⟩

/-- A list of well-shaped tool definitions is transformed without an
exception. -/
theorem transformToolList_ok (ts : List Json) (h : ts.all toolOk = true) :
    ∃ out, transformToolList ts = Except.ok out := by
  induction ts with
  | nil => exact ⟨[], rfl⟩
  | cons t rest ih =>
    rw [List.all_cons, Bool.and_eq_true] at h
    obtain ⟨h1, h2⟩ := h
    obtain ⟨s, hs⟩ := transformTool_ok t h1
    obtain ⟨out, hout⟩ := ih h2
    exact ⟨s :: out, by simp [transformToolList, hs, hout]⟩

/-- The message loop succeeds on processable messages, and its
instructions accumulator is exactly the normalized system/developer
contents in original order. -/
theorem collectMessages_ok (msgs : List Json) (h : msgs.all msgOk = true) :
    ∃ items, collectMessages msgs = Except.ok (instructionDraft msgs, items) := by
  induction msgs with
  | nil => exact ⟨[], rfl⟩
  | cons m rest ih =>
    rw [List.all_cons, Bool.and_eq_true] at h
    obtain ⟨h1, h2⟩ := h
    obtain ⟨items, hrest⟩ := ih h2
    cases m
    · simp [msgOk] at h1
    · simp [msgOk] at h1
    · simp [msgOk] at h1
    · simp [msgOk] at h1
    · simp [msgOk] at h1
    · rename_i kvs
      by_cases hsd : (roleIs (pyGet kvs "role") "system" || roleIs (pyGet kvs "role") "developer") = true
      · exact ⟨items, by simp [collectMessages, instructionDraft, hsd, hrest]⟩
      · have hsd' : (roleIs (pyGet kvs "role") "system" || roleIs (pyGet kvs "role") "developer") = false := by
          simpa using hsd
        by_cases htool : roleIs (pyGet kvs "role") "tool" = true
        · exact ⟨InputItem.functionCallOutput (contentToText (pyGet kvs "content")) "completed"
                   (pyGet kvs "tool_call_id") :: items,
                 by simp [collectMessages, instructionDraft, hsd', htool, hrest]⟩
        · have htool' : roleIs (pyGet kvs "role") "tool" = false := by simpa using htool
          by_cases htc : pyTruthy (pyGet kvs "tool_calls") = true
          · cases hv : pyGet kvs "tool_calls"
            · rw [hv] at htc; simp [pyTruthy] at htc
            · rw [hv] at htc; simp [msgOk, hsd', htool', htc, hv] at h1
            · rw [hv] at htc; simp [msgOk, hsd', htool', htc, hv] at h1
            · rw [hv] at htc; simp [msgOk, hsd', htool', htc, hv] at h1
            · rename_i tcs
              have htc2 : pyTruthy (Json.arr tcs) = true := by rw [hv] at htc; exact htc
              have hall : tcs.all toolCallOk = true := by
                simpa [msgOk, hsd', htool', htc2, hv] using h1
              obtain ⟨tcItems, htci⟩ := toolCallsToItems_ok tcs hall
              exact ⟨InputItem.turn (pyOr (pyGet kvs "role") (Json.str "user"))
                       (if roleIs (pyGet kvs "role") "user" then "input_text" else "output_text")
                       (contentToText (pyGet kvs "content")) :: (tcItems ++ items),
                     by simp [collectMessages, instructionDraft, hsd', htool', htc2, hv, htci, hrest]⟩
            · rw [hv] at htc; simp [msgOk, hsd', htool', htc, hv] at h1
          · have htc' : pyTruthy (pyGet kvs "tool_calls") = false := by simpa using htc
            exact ⟨InputItem.turn (pyOr (pyGet kvs "role") (Json.str "user"))
                     (if roleIs (pyGet kvs "role") "user" then "input_text" else "output_text")
                     (contentToText (pyGet kvs "content")) :: ([] ++ items),
                   by simp [collectMessages, instructionDraft, hsd', htool', htc', hrest]⟩

/-- When the messages value is a list of processable messages, the
messages stage returns exactly the blank-line join of the
system/developer contents (or None) together with some input items. -/
theorem messagesStage_arr (kvs : List (String × Json)) (msgs : List Json)
    (hv : pyOr (pyGet kvs "messages") (Json.arr []) = Json.arr msgs)
    (hall : msgs.all msgOk = true) :
    ∃ items, messagesStage kvs = Except.ok
      ((if (instructionDraft msgs).isEmpty then none
        else some (String.intercalate "\n\n" (instructionDraft msgs))),
       (if items.isEmpty then none else some items)) := by
  obtain ⟨items, hc⟩ := collectMessages_ok msgs hall
  exact ⟨items, by simp [messagesStage, hv, messagesToResponsesInputAndInstructions, hc]⟩

/-- Under a benign payload the messages stage cannot raise. -/
theorem messagesStage_ok (kvs : List (String × Json)) (h : benignPayload kvs = true) :
    ∃ mi, messagesStage kvs = Except.ok mi := by
  rw [benignPayload, Bool.and_eq_true] at h
  obtain ⟨h1, _⟩ := h
  cases hv : pyOr (pyGet kvs "messages") (Json.arr [])
  · exact ⟨(none, none), by simp [messagesStage, hv]⟩
  · exact ⟨(none, none), by simp [messagesStage, hv]⟩
  · exact ⟨(none, none), by simp [messagesStage, hv]⟩
  · exact ⟨(none, none), by simp [messagesStage, hv]⟩
  · rename_i msgs
    rw [hv] at h1
    obtain ⟨items, hm⟩ := messagesStage_arr kvs msgs hv (by simpa using h1)
    exact ⟨_, hm⟩
  · exact ⟨(none, none), by simp [messagesStage, hv]⟩

/-- Under a benign payload the tools stage cannot raise. -/
theorem toolsStage_ok (kvs : List (String × Json)) (h : benignPayload kvs = true) :
    ∃ ts, toolsStage kvs = Except.ok ts := by
  rw [benignPayload, Bool.and_eq_true] at h
  obtain ⟨_, h2⟩ := h
  cases hv : (getKey kvs "tools").getD (Json.arr [])
  · exact ⟨[], by simp [toolsStage, transformToolsForResponses, hv]⟩
  · exact ⟨[], by simp [toolsStage, transformToolsForResponses, hv]⟩
  · exact ⟨[], by simp [toolsStage, transformToolsForResponses, hv]⟩
  · exact ⟨[], by simp [toolsStage, transformToolsForResponses, hv]⟩
  · rename_i ts
    rw [hv] at h2
    obtain ⟨out, hout⟩ := transformToolList_ok ts (by simpa using h2)
    exact ⟨out, by simp [toolsStage, transformToolsForResponses, hv, hout]⟩
  · exact ⟨[], by simp [toolsStage, transformToolsForResponses, hv]⟩

/-- The value of adapt on a dict payload whose model value is a string
and whose messages and tools stages succeed, as one closed expression
over the decision points that remain. -/
theorem adapt_benign_eq (hdrs : List (String × String)) (settings : Settings)
    (kvs : List (String × Json)) (s : String)
    (instrOpt : Option String) (inputOpt : Option (List InputItem)) (tools : List ToolSchema)
    (hm : pyGet kvs "model" = Json.str s)
    (hmi : messagesStage kvs = Except.ok (instrOpt, inputOpt))
    (hts : toolsStage kvs = Except.ok tools) :
    adapt ⟨hdrs, some (Json.obj kvs)⟩ settings =
      (if pyLower (replaceGptAll s) ∈ allowedEfforts then
         if settings.azureSummaryLevel ∈ ["auto", "detailed", "concise"] then
           Except.ok
             { method := "POST", url := settings.azureResponsesApiUrl,
               headers := copyRequestHeadersForAzure hdrs settings.azureApiKey,
               json := { instructions := instrOpt, input := inputOpt,
                         model := settings.azureDeployment, tools := tools,
                         tool_choice := pyGet kvs "tool_choice",
                         prompt_cache_key := pyGet kvs "user",
                         stream := true,
                         reasoning := { effort := pyLower (replaceGptAll s),
                                        summary := settings.azureSummaryLevel },
                         text := (if settings.azureVerbosityLevel ∈ ["low", "high"]
                                  then some { verbosity := settings.azureVerbosityLevel }
                                  else none),
                         store := false,
                         stream_options := { include_obfuscation := false },
                         truncation := (if settings.azureTruncation = "auto"
                                        then some settings.azureTruncation else none) },
               data := none, stream := true, timeout := (60, none) }
         else
           Except.error (AdaptError.serviceConfigurationError
             ("AZURE_SUMMARY_LEVEL must be either auto, detailed, or concise.\n\nGot: "
               ++ settings.azureSummaryLevel))
       else
         Except.error (AdaptError.cursorConfigurationError
           ("Model name must be either gpt-high, gpt-medium, gpt-low, or gpt-minimal.\n\nGot: "
             ++ s))) := by
  simp [adapt, hmi, hts, hm]

/-- C1: the spec demands that the prompt_cache_key value never appear
unredacted in the caller-visible upstream-error report, but the masking
pattern needs at least six matchable characters: on the five-character
key "abcde" the substitution is the identity and the report's
request_body carries the raw key verbatim. -/
theorem c1_short_cache_key_unredacted :
    (redactOutBody bShort).prompt_cache_key = "abcde"
    ∧ reSubCacheKey "abcde" = "abcde" :=
  ⟨rfl, rfl⟩

/-- C2 counterexample: the code removes every occurrence of "gpt-", not
a single prefix.  On model "gpt-gpt-low" adapt succeeds with effort
"low", while the claim's strip-one-prefix rule gives "gpt-low", which is
outside the accepted set, so the claim predicts a ConfigurationError. -/
theorem c2_effort_counterexample :
    (adaptBody reqDoubleGpt settings0).map (fun b => b.reasoning.effort) = some "low"
    ∧ specEffortOfModel "gpt-gpt-low" ∉ allowedEfforts :=
  ⟨rfl, by decide⟩

/-- C2 (amended): the outbound reasoning.effort equals the inbound model
name with every occurrence of "gpt-" removed (case-sensitively) and the
remainder lowercased, provided that result is one of high, medium, low,
minimal; otherwise adapt fails with a CursorConfigurationError whose
message names the offending model string. -/
theorem c2_model_effort (hdrs : List (String × String)) (settings : Settings)
    (kvs : List (String × Json)) (s : String)
    (hm : getKey kvs "model" = some (Json.str s))
    (hb : benignPayload kvs = true)
    (hsum : settings.azureSummaryLevel ∈ ["auto", "detailed", "concise"]) :
    (match adapt ⟨hdrs, some (Json.obj kvs)⟩ settings with
     | Except.ok kwargs =>
         pyLower (replaceGptAll s) ∈ allowedEfforts
         ∧ kwargs.json.reasoning.effort = pyLower (replaceGptAll s)
     | Except.error e =>
         pyLower (replaceGptAll s) ∉ allowedEfforts
         ∧ e = AdaptError.cursorConfigurationError
             ("Model name must be either gpt-high, gpt-medium, gpt-low, or gpt-minimal.\n\nGot: "
               ++ s)) := by
  obtain ⟨⟨instrOpt, inputOpt⟩, hmi⟩ := messagesStage_ok kvs hb
  obtain ⟨tools, hts⟩ := toolsStage_ok kvs hb
  have hm' : pyGet kvs "model" = Json.str s := by simp [pyGet, hm]
  rw [adapt_benign_eq hdrs settings kvs s instrOpt inputOpt tools hm' hmi hts]
  by_cases he : pyLower (replaceGptAll s) ∈ allowedEfforts
  · simp [he, hsum]
  · simp [he]

/-- C2 witness: model "gpt-Medium" yields effort "medium". -/
theorem c2_model_effort_witness :
    getKey [("model", Json.str "gpt-Medium")] "model" = some (Json.str "gpt-Medium")
    ∧ benignPayload [("model", Json.str "gpt-Medium")] = true
    ∧ settings0.azureSummaryLevel ∈ ["auto", "detailed", "concise"]
    ∧ (match adapt ⟨[], some (Json.obj [("model", Json.str "gpt-Medium")])⟩ settings0 with
       | Except.ok kwargs =>
           pyLower (replaceGptAll "gpt-Medium") ∈ allowedEfforts
           ∧ kwargs.json.reasoning.effort = pyLower (replaceGptAll "gpt-Medium")
       | Except.error e =>
           pyLower (replaceGptAll "gpt-Medium") ∉ allowedEfforts
           ∧ e = AdaptError.cursorConfigurationError
               ("Model name must be either gpt-high, gpt-medium, gpt-low, or gpt-minimal.\n\nGot: "
                 ++ "gpt-Medium")) :=
  ⟨rfl, rfl, by decide,
   c2_model_effort [] settings0 [("model", Json.str "gpt-Medium")] "gpt-Medium" rfl rfl (by decide)⟩

/-- C3: for every non-200 upstream reply the caller-visible response
carries the vendor status unchanged except that 401 becomes 400, and its
body is the redacted request body. -/
theorem c3_status_mapping (req : InboundReq) (settings : Settings) (status : Nat)
    (h : status ≠ 200) :
    (forward req settings (NetOutcome.reply status)).snd =
      (match adapt req settings with
       | Except.error e => ForwardOutcome.adaptFailure e
       | Except.ok kwargs =>
           ForwardOutcome.errorResponse (if status = 401 then 400 else status)
             (redactOutBody kwargs.json)) := by
  cases ha : adapt req settings with
  | error e => simp [forward, ha]
  | ok kwargs => simp [forward, ha, h, handleAzureError]

/-- C3 witness: a vendor 401 during a well-formed request. -/
theorem c3_status_mapping_witness :
    (401 : Nat) ≠ 200
    ∧ (forward reqHi settings0 (NetOutcome.reply 401)).snd =
        (match adapt reqHi settings0 with
         | Except.error e => ForwardOutcome.adaptFailure e
         | Except.ok kwargs =>
             ForwardOutcome.errorResponse (if (401 : Nat) = 401 then 400 else 401)
               (redactOutBody kwargs.json)) :=
  ⟨by decide, c3_status_mapping reqHi settings0 401 (by decide)⟩

/-- C4 counterexample: an absent prompt_cache_key is not reported as the
literal marker "no prompt_cache_key" — the marker itself is run through
the masking and the report shows "no ***key"; and a present
five-character key is not reduced to first-three/last-three — it is left
untouched. -/
theorem c4_cache_key_counterexample :
    (redactOutBody bAbsent).prompt_cache_key = "no ***key"
    ∧ ("no ***key" : String) ≠ "no prompt_cache_key"
    ∧ (redactOutBody bShort).prompt_cache_key = "abcde"
    ∧ ("abcde" : String) ≠ "abc***cde" :=
  ⟨rfl, by decide, rfl, by decide⟩

/-- C4 (amended): a present string prompt_cache_key of at least six
characters (none a newline) is reduced to its first three and last three
characters with the middle masked as three asterisks; a shorter key is
left unchanged; an absent key is first replaced by the marker
"no prompt_cache_key", which the same masking then renders as
"no ***key". -/
theorem c4_cache_key_masking :
    (∀ (b : OutBody) (s : String), b.prompt_cache_key = Json.str s → s ≠ "" →
       (∀ c ∈ s.data, c ≠ '\n') →
       (redactOutBody b).prompt_cache_key =
         (if 6 ≤ s.length then
            String.mk (s.data.take 3 ++ ['*', '*', '*'] ++ s.data.drop (s.data.length - 3))
          else s))
    ∧ (∀ b : OutBody, b.prompt_cache_key = Json.null →
         (redactOutBody b).prompt_cache_key = "no ***key") := by
  constructor
  · intro b s hb hne hnl
    have htr : pyTruthy (Json.str s) = true := by simp [pyTruthy, hne]
    have hsplit : splitNl s.data = [s.data] := splitNl_no_newline s.data hnl
    simp only [redactOutBody, hb, htr, if_true, pyStr]
    show reSubCacheKey s = _
    unfold reSubCacheKey
    rw [hsplit]
    have hsingle : List.intercalate ['\n'] [redactRunL s.data] = redactRunL s.data := by
      simp [List.intercalate]
    simp only [List.map, hsingle]
    unfold redactRunL
    by_cases h6 : 6 ≤ s.data.length
    · simp only [h6, if_true, String.length]
    · simp only [h6, if_false, String.length]
  · intro b hb
    simp only [redactOutBody, hb, pyTruthy, Bool.false_eq_true, if_false]
    rfl

/-- C4 witness: the eight-character key "abcdefgh" masks to
"abc***fgh", and the absent key reports as "no ***key". -/
theorem c4_cache_key_masking_witness :
    bKey8.prompt_cache_key = Json.str "abcdefgh"
    ∧ (redactOutBody bKey8).prompt_cache_key =
        (if 6 ≤ ("abcdefgh" : String).length then
           String.mk (("abcdefgh" : String).data.take 3 ++ ['*', '*', '*']
             ++ ("abcdefgh" : String).data.drop (("abcdefgh" : String).data.length - 3))
         else "abcdefgh")
    ∧ bAbsent.prompt_cache_key = Json.null
    ∧ (redactOutBody bAbsent).prompt_cache_key = "no ***key" :=
  ⟨rfl,
   c4_cache_key_masking.1 bKey8 "abcdefgh" rfl (by decide) (by decide),
   rfl,
   c4_cache_key_masking.2 bAbsent rfl⟩

/-- C5 counterexample: the configured verbosity "banana" is outside the
claimed enumeration, yet adapt succeeds (no ServiceConfigurationError is
raised) and simply emits no text field. -/
theorem c5_verbosity_counterexample :
    (adaptBody reqHi settingsBanana).map OutBody.text = some none
    ∧ ¬ ("banana" = "low" ∨ "banana" = "medium" ∨ "banana" = "high") :=
  ⟨rfl, by decide⟩

/-- C5 (amended): adapt never validates the configured verbosity; it
forwards it as text.verbosity exactly when it is "low" or "high", and
any other value (the default "medium" and arbitrary invalid values
alike) produces no text field and no error. -/
theorem c5_verbosity (hdrs : List (String × String)) (settings : Settings)
    (kvs : List (String × Json)) (s : String)
    (hm : getKey kvs "model" = some (Json.str s))
    (hb : benignPayload kvs = true)
    (he : pyLower (replaceGptAll s) ∈ allowedEfforts)
    (hsum : settings.azureSummaryLevel ∈ ["auto", "detailed", "concise"]) :
    (match adaptBody ⟨hdrs, some (Json.obj kvs)⟩ settings with
     | some b => b.text = (if settings.azureVerbosityLevel ∈ ["low", "high"]
                           then some { verbosity := settings.azureVerbosityLevel }
                           else none)
     | none => False) := by
  obtain ⟨⟨instrOpt, inputOpt⟩, hmi⟩ := messagesStage_ok kvs hb
  obtain ⟨tools, hts⟩ := toolsStage_ok kvs hb
  have hm' : pyGet kvs "model" = Json.str s := by simp [pyGet, hm]
  simp only [adaptBody]
  rw [adapt_benign_eq hdrs settings kvs s instrOpt inputOpt tools hm' hmi hts]
  simp [he, hsum]

/-- C5 witness: with the default verbosity "medium" no text field is
emitted. -/
theorem c5_verbosity_witness :
    getKey [("model", Json.str "gpt-low")] "model" = some (Json.str "gpt-low")
    ∧ benignPayload [("model", Json.str "gpt-low")] = true
    ∧ pyLower (replaceGptAll "gpt-low") ∈ allowedEfforts
    ∧ settings0.azureSummaryLevel ∈ ["auto", "detailed", "concise"]
    ∧ (match adaptBody ⟨[], some (Json.obj [("model", Json.str "gpt-low")])⟩ settings0 with
       | some b => b.text = (if settings0.azureVerbosityLevel ∈ ["low", "high"]
                             then some { verbosity := settings0.azureVerbosityLevel }
                             else none)
       | none => False) :=
  ⟨rfl, rfl, by decide, by decide,
   c5_verbosity [] settings0 [("model", Json.str "gpt-low")] "gpt-low" rfl rfl
     (by decide) (by decide)⟩

/-- C6 counterexample: two system messages "a" and "b" produce the
blank-line join "a\n\nb", not the single-newline join "a\nb" that the
claim's "newline-joined" wording denotes. -/
theorem c6_instructions_counterexample :
    (adaptBody reqTwoSystems settings0).map OutBody.instructions = some (some "a\n\nb")
    ∧ some (some ("a\n\nb" : String)) ≠ some (some (String.intercalate "\n" ["a", "b"])) :=
  ⟨rfl, by decide⟩

/-- C6 (amended): the outbound instructions field equals the
blank-line-joined (two newlines) normalized contents of all
system/developer messages in their original order, and the field is
absent (None, never an empty string) when no system/developer messages
exist. -/
theorem c6_instructions (hdrs : List (String × String)) (settings : Settings)
    (kvs : List (String × Json)) (s : String) (msgs : List Json)
    (hm : getKey kvs "model" = some (Json.str s))
    (hv : pyOr (pyGet kvs "messages") (Json.arr []) = Json.arr msgs)
    (hall : msgs.all msgOk = true)
    (hb : benignPayload kvs = true)
    (he : pyLower (replaceGptAll s) ∈ allowedEfforts)
    (hsum : settings.azureSummaryLevel ∈ ["auto", "detailed", "concise"]) :
    (match adaptBody ⟨hdrs, some (Json.obj kvs)⟩ settings with
     | some b => b.instructions =
         (if (instructionDraft msgs).isEmpty then none
          else some (String.intercalate "\n\n" (instructionDraft msgs)))
     | none => False) := by
  obtain ⟨items, hmi⟩ := messagesStage_arr kvs msgs hv hall
  obtain ⟨tools, hts⟩ := toolsStage_ok kvs hb
  have hm' : pyGet kvs "model" = Json.str s := by simp [pyGet, hm]
  simp only [adaptBody]
  rw [adapt_benign_eq hdrs settings kvs s _ _ tools hm' hmi hts]
  simp [he, hsum]

/-- C6 witness: two system messages "a" and "b" and a user message give
instructions "a\n\nb". -/
theorem c6_instructions_witness :
    getKey kvsTwoSystems "model" = some (Json.str "gpt-low")
    ∧ pyOr (pyGet kvsTwoSystems "messages") (Json.arr []) = Json.arr msgsTwoSystems
    ∧ msgsTwoSystems.all msgOk = true
    ∧ benignPayload kvsTwoSystems = true
    ∧ pyLower (replaceGptAll "gpt-low") ∈ allowedEfforts
    ∧ settings0.azureSummaryLevel ∈ ["auto", "detailed", "concise"]
    ∧ (match adaptBody ⟨[], some (Json.obj kvsTwoSystems)⟩ settings0 with
       | some b => b.instructions =
           (if (instructionDraft msgsTwoSystems).isEmpty then none
            else some (String.intercalate "\n\n" (instructionDraft msgsTwoSystems)))
       | none => False) :=
  ⟨rfl, rfl, rfl, rfl, by decide, by decide,
   c6_instructions [] settings0 kvsTwoSystems "gpt-low" msgsTwoSystems rfl rfl rfl rfl
     (by decide) (by decide)⟩

/-- C7: the content normalizer is total and deterministic over the JSON
values Flask can hand it: it is a Lean function (every input yields
exactly one string, no failure path exists), and the absent value
(Python None) yields the empty string. -/
theorem c7_normalizer_total :
    contentToText Json.null = "" ∧ ∀ c : Json, ∃ s : String, contentToText c = s :=
  ⟨rfl, fun c => ⟨contentToText c, rfl⟩⟩

/-- C8: the outbound calls of forward are empty exactly when the request
translator fails, and a single call otherwise: no call before
translation succeeds, exactly one call per inbound request. -/
theorem c8_single_outbound_call (req : InboundReq) (settings : Settings) (net : NetOutcome) :
    (forward req settings net).fst =
      (match adapt req settings with
       | Except.error _ => []
       | Except.ok kwargs => [kwargs]) := by
  cases ha : adapt req settings with
  | error e => simp [forward, ha]
  | ok kwargs =>
    cases net with
    | transportFailure err => simp [forward, ha]
    | reply status => by_cases hs : status = 200 <;> simp [forward, ha, hs]

/-- C9: the spec requires transport failures to be caught and converted
into a diagnostic response, but forward wraps requests.request in no
handler: on a connection failure the exception propagates out of forward
(after the one outbound attempt) instead of becoming an error
Response. -/
theorem c9_transport_error_propagates :
    (forward reqHi settings0
       (NetOutcome.transportFailure "requests.exceptions.ConnectionError")).snd
      = ForwardOutcome.transportException "requests.exceptions.ConnectionError"
    ∧ (forward reqHi settings0
         (NetOutcome.transportFailure "requests.exceptions.ConnectionError")).fst.length = 1 :=
  ⟨rfl, rfl⟩

/-- C10: a payload that is not a JSON object fails adapt with an
AttributeError (payload.get on a non-dict), and an object payload whose
model field is missing or null — with otherwise benign messages and
tools — fails adapt with an AttributeError (.replace on None), not with
the caller-facing ConfigurationError. -/
theorem c10_missing_model_attribute_error :
    (∀ (hdrs : List (String × String)) (settings : Settings) (payload : Option Json),
       isObjPayload payload = false →
       ∃ d, adapt ⟨hdrs, payload⟩ settings = Except.error (AdaptError.attributeError d))
    ∧ (∀ (hdrs : List (String × String)) (settings : Settings) (kvs : List (String × Json)),
         (getKey kvs "model" = none ∨ getKey kvs "model" = some Json.null) →
         benignPayload kvs = true →
         ∃ d, adapt ⟨hdrs, some (Json.obj kvs)⟩ settings
                = Except.error (AdaptError.attributeError d)) := by
  constructor
  · intro hdrs settings payload hp
    cases payload with
    | none => exact ⟨_, rfl⟩
    | some j =>
      cases j
      · exact ⟨_, rfl⟩
      · exact ⟨_, rfl⟩
      · exact ⟨_, rfl⟩
      · exact ⟨_, rfl⟩
      · exact ⟨_, rfl⟩
      · simp [isObjPayload] at hp
  · intro hdrs settings kvs hm hb
    obtain ⟨⟨instrOpt, inputOpt⟩, hmi⟩ := messagesStage_ok kvs hb
    obtain ⟨tools, hts⟩ := toolsStage_ok kvs hb
    have hm' : pyGet kvs "model" = Json.null := by
      cases hm with
      | inl h => simp [pyGet, h]
      | inr h => simp [pyGet, h]
    exact ⟨"inbound model has no attribute replace", by simp [adapt, hmi, hts, hm']⟩

/-- C10 witness: a JSON-array body, and an empty JSON-object body. -/
theorem c10_missing_model_attribute_error_witness :
    isObjPayload (some (Json.arr [])) = false
    ∧ (∃ d, adapt ⟨[], some (Json.arr [])⟩ settings0
              = Except.error (AdaptError.attributeError d))
    ∧ (getKey ([] : List (String × Json)) "model" = none
       ∨ getKey ([] : List (String × Json)) "model" = some Json.null)
    ∧ benignPayload [] = true
    ∧ (∃ d, adapt ⟨[], some (Json.obj [])⟩ settings0
              = Except.error (AdaptError.attributeError d)) :=
  ⟨rfl,
   c10_missing_model_attribute_error.1 [] settings0 (some (Json.arr [])) rfl,
   Or.inl rfl, rfl,
   c10_missing_model_attribute_error.2 [] settings0 [] (Or.inl rfl) rfl⟩

end CursorAzure
